import Mathlib

/-!
Verification development for the subscription bot in `main.py`.

The embedding is shallow: each Python function of the subscription core is
translated into an executable Lean definition.  External effects (Telegram
gateway calls, Google-Sheets reads and writes, sleeps) are reified as an
`Action` type; the outcome of each effect is supplied by an oracle
`g : Action → Bool` (`true` = the call returns normally, `false` = it raises).
A `try ... except Exception: log` block is modelled by `runTry`, which executes
actions in order, stops at the first raising action, and returns the pair
(actions that completed normally, the caught exception if any).
-/

namespace Sowatly

/-! ### String helpers mirroring the Python primitives used by `main.py` -/

/-- Python `str.strip()` on the character list of a string. -/
def stripChars (cs : List Char) : List Char :=
  ((cs.dropWhile Char.isWhitespace).reverse.dropWhile Char.isWhitespace).reverse

/-- Python `str.lower()` (ASCII-adequate for the fields this program compares). -/
def pyLower (s : String) : String :=
  ⟨s.data.map Char.toLower⟩

/-- Split a character list on the literal dash, as `"%Y-%m-%d"` parsing needs. -/
def splitDash : List Char → List Char → List (List Char)
  | [], acc => [acc.reverse]
  | c :: cs, acc =>
    if c = '-' then acc.reverse :: splitDash cs []
    else splitDash cs (c :: acc)

/-- Numeric value of a list of decimal digits. -/
def digitsVal (cs : List Char) : Nat :=
  cs.foldl (fun n c => 10 * n + (c.toNat - 48)) 0

/-- Python `int(s)` on an already-stripped string: an optional sign followed by
decimal digits; anything else raises `ValueError`, modelled as `none`. -/
def pyIntOpt (cs : List Char) : Option Int :=
  match cs with
  | '-' :: rest =>
    if rest ≠ [] ∧ rest.all Char.isDigit then some (-(digitsVal rest : Int)) else none
  | '+' :: rest =>
    if rest ≠ [] ∧ rest.all Char.isDigit then some ((digitsVal rest : Int)) else none
  | _ =>
    if cs ≠ [] ∧ cs.all Char.isDigit then some ((digitsVal cs : Int)) else none

/-! ### Calendar dates (`datetime.date`) -/

/-- A calendar date as `datetime.date` holds it. -/
structure Date where
  y : Nat
  m : Nat
  d : Nat
deriving DecidableEq

/-- Proleptic-Gregorian leap-year rule used by `datetime`. -/
def isLeap (y : Nat) : Bool :=
  y % 4 = 0 && (y % 100 ≠ 0 || y % 400 = 0)

/-- Number of days in a month, as `datetime.date` validates it. -/
def daysInMonth (y m : Nat) : Nat :=
  if m = 2 then (if isLeap y then 29 else 28)
  else if m = 4 ∨ m = 6 ∨ m = 9 ∨ m = 11 then 30
  else 31

/-- Python `date` comparison: lexicographic on (year, month, day). -/
def dateLt (a b : Date) : Bool :=
  decide (a.y < b.y ∨ (a.y = b.y ∧ (a.m < b.m ∨ (a.m = b.m ∧ a.d < b.d))))

/-- Python `date` comparison `a <= b`. -/
def dateLe (a b : Date) : Bool :=
  dateLt a b || decide (a = b)

/-- `parse_date_or_none` from `main.py`: empty string gives `None`, otherwise
`datetime.strptime(s.strip(), "%Y-%m-%d")`; any parse or validation failure
gives `None`.  `%Y` requires exactly four digits, `%m` and `%d` one or two
digits, and the `date` constructor validates the ranges. -/
def parse_date_or_none (s : String) : Option Date :=
  if s = "" then none
  else
    match splitDash (stripChars s.data) [] with
    | [ys, ms, ds] =>
      if ys.length = 4 ∧ ys.all Char.isDigit ∧
          1 ≤ ms.length ∧ ms.length ≤ 2 ∧ ms.all Char.isDigit ∧
          1 ≤ ds.length ∧ ds.length ≤ 2 ∧ ds.all Char.isDigit then
        let y := digitsVal ys
        let m := digitsVal ms
        let d := digitsVal ds
        if 1 ≤ y ∧ 1 ≤ m ∧ m ≤ 12 ∧ 1 ≤ d ∧ d ≤ daysInMonth y m then
          some ⟨y, m, d⟩
        else none
      else none
    | _ => none

/-- Zero-padding to two digits, as `date.isoformat` prints months and days. -/
def pad2 (n : Nat) : String :=
  if n < 10 then "0" ++ toString n else toString n

/-- Zero-padding to four digits, as `date.isoformat` prints years. -/
def pad4 (n : Nat) : String :=
  if n < 10 then "000" ++ toString n
  else if n < 100 then "00" ++ toString n
  else if n < 1000 then "0" ++ toString n
  else toString n

/-- `date.isoformat()`. -/
def dateIso (e : Date) : String :=
  pad4 e.y ++ "-" ++ pad2 e.m ++ "-" ++ pad2 e.d

/-! ### The record store row -/

/-- One sheet row as both `read_user` and `get_all_records` expose it: the five
columns, all as raw text (absent cells default to the empty string). -/
structure Record where
  telegram_id : String
  username : String
  full_name : String
  paid : String
  expiry_date : String
deriving DecidableEq

/-! ### External effects -/

/-- Configured chat group id (`CHAT_ID` default in `main.py`). -/
def CHAT_ID : Int := -1003432639493

/-- Configured channel group id (`CHANNEL_ID` default in `main.py`). -/
def CHANNEL_ID : Int := -1003393989918

/-- Configured administrator contact (`ADMIN_CONTACT` default in `main.py`). -/
def ADMIN_CONTACT : String := "@makkk0657"

/-- One external effect the subscription core can perform. -/
inductive Action where
  | ban (group : Int) (member : Int)
  | unban (group : Int) (member : Int)
  | sleep (secs : Nat)
  | createInvite (group : Int)
  | sendMessage (dest : Int) (text : String)
  | storeAppend (vals : List String)
  | storeUpdate (row : Nat) (vals : List String)
deriving DecidableEq

/-- Whether an action writes to the record store. -/
def Action.isStoreWrite : Action → Bool
  | .storeAppend _ => true
  | .storeUpdate _ _ => true
  | _ => false

/-- Whether an action sends a message to the member. -/
def Action.isSend : Action → Bool
  | .sendMessage _ _ => true
  | _ => false

/-- Semantics of a `try`-block over a sequence of effectful calls with the
handler `except Exception as e: logging.error(...)`: calls run in order; the
first call the oracle fails raises, the rest of the block is skipped, and the
exception is caught by the handler.  The result is the list of calls that
completed normally together with the caught exception, if any. -/
def runTry (g : Action → Bool) : List Action → List Action × Option Action
  | [] => ([], none)
  | a :: as =>
    if g a then
      let r := runTry g as
      (a :: r.1, r.2)
    else ([], some a)

/-- The calls a guarded block attempted: the successful ones plus, when a call
raised, that raising call. -/
def attempted (p : List Action × Option Action) : List Action :=
  p.1 ++ (match p.2 with | some a => [a] | none => [])

/-! ### Transcriptions of the source functions -/

/-- The revoke sequence written inline in `cmd_check` (ban, pause, unban on the
chat, then the same on the channel). -/
def checkRevokeSeq (tg : Int) : List Action :=
  [Action.ban CHAT_ID tg, Action.sleep 1, Action.unban CHAT_ID tg,
   Action.ban CHANNEL_ID tg, Action.sleep 1, Action.unban CHANNEL_ID tg]

/-- The revoke sequence written inline in `subscription_watcher`. -/
def watcherRevokeSeq (tg : Int) : List Action :=
  [Action.ban CHAT_ID tg, Action.sleep 1, Action.unban CHAT_ID tg,
   Action.ban CHANNEL_ID tg, Action.sleep 1, Action.unban CHANNEL_ID tg]

/-- Tag standing for the chat-link message text sent by `send_invite_links`. -/
def chatLinkText : String := "link to the chat"

/-- Tag standing for the channel-link message text sent by `send_invite_links`. -/
def channelLinkText : String := "link to the channel"

/-- The four calls inside the `try` of `send_invite_links`: create both links,
then send both messages. -/
def inviteSeq (tg : Int) : List Action :=
  [Action.createInvite CHAT_ID, Action.createInvite CHANNEL_ID,
   Action.sendMessage tg chatLinkText, Action.sendMessage tg channelLinkText]

/-- `send_invite_links` from `main.py`: the whole body sits in one
`try ... except Exception: logging.error(...)`; nothing is returned or
re-raised. -/
def send_invite_links (g : Action → Bool) (tg : Int) : List Action × Option Action :=
  runTry g (inviteSeq tg)

/-- `add_user_record` from `main.py`: append the new row with payment status
`"no"` and an empty expiry. -/
def add_user_record (tg : Int) (username full_name : String) : Action :=
  Action.storeAppend [toString tg, username, full_name, "no", ""]

/-- `update_user_fields` from `main.py`, abstracted to the store write it
performs on columns A..E of the given row. -/
def update_user_fields (row : Nat) (vals : List String) : Action :=
  Action.storeUpdate row vals

/-- The distinct classification a `/check` evaluation lands in. -/
inductive SubState where
  | awaitingPayment
  | awaitingNoExpiry
  | expired (e : Date)
  | active (e : Date)
deriving DecidableEq

/-- Whether a classification is the expired one. -/
def SubState.isExpired : SubState → Bool
  | .expired _ => true
  | _ => false

/-- Reply of `cmd_check` when payment is not confirmed. -/
def msgCheckUnpaid : String :=
  "Оплата не подтверждена. Свяжитесь с администратором: " ++ ADMIN_CONTACT

/-- Reply of `cmd_check` when no valid expiry date is set. -/
def msgCheckNoDate : String :=
  "Дата окончания подписки не установлена. Свяжитесь с администратором."

/-- Reply of `cmd_check` on an expired subscription. -/
def msgCheckExpired : String :=
  "Срок подписки истёк. Свяжитесь с администратором для продления."

/-- Reply of `cmd_check` on an active subscription. -/
def msgCheckActive (e : Date) : String :=
  "Ваша подписка активна до " ++ dateIso e ++ ". Ссылки на чат и канал отправлены вам лично."

/-- Reply of `cmd_start` for a registered, paid, active member. -/
def msgStartActive (e : Date) : String :=
  "Вы уже оплатили. Ссылка на чат и канал отправлена. Подписка до " ++ dateIso e ++ "."

/-- Reply of `cmd_start` in its `else` branch for a paid member without a
valid, future expiry date. -/
def msgStartExpired : String :=
  "Срок подписки истёк. Свяжитесь с администратором для продления."

/-- Reply of `cmd_start` for a registered member whose payment is not
confirmed. -/
def msgStartUnpaid : String :=
  "Вы зарегистрированы, но оплата не подтверждена. Свяжитесь с администратором: " ++ ADMIN_CONTACT

/-- Result of one handler evaluation on a found record: the classification it
lands in, the gateway calls that completed, the exception logged by its guarded
block (if any), and the reply sent to the member. -/
structure HandlerRun where
  cls : SubState
  succeeded : List Action
  logged : Option Action
  reply : String
deriving DecidableEq

/-- Result of a `/start` evaluation on a found record. -/
structure StartRun where
  succeeded : List Action
  logged : Option Action
  reply : String
deriving DecidableEq

/-- The body of `cmd_check` after the row was found and read (`read_user`
lowercases the paid column, hence `pyLower`): unpaid and missing-expiry records
answer and return; an expired record runs the guarded revoke sequence and then
answers; otherwise invite links are sent and the active reply follows. -/
def cmd_check_found (g : Action → Bool) (tg : Int) (r : Record) (today : Date) : HandlerRun :=
  if pyLower r.paid ≠ "yes" then
    ⟨SubState.awaitingPayment, [], none, msgCheckUnpaid⟩
  else
    match parse_date_or_none r.expiry_date with
    | none => ⟨SubState.awaitingNoExpiry, [], none, msgCheckNoDate⟩
    | some e =>
      if dateLt e today then
        let run := runTry g (checkRevokeSeq tg)
        ⟨SubState.expired e, run.1, run.2, msgCheckExpired⟩
      else
        let run := send_invite_links g tg
        ⟨SubState.active e, run.1, run.2, msgCheckActive e⟩

/-- The classification the `/check` path computes for a record on a date. -/
def checkClassify (r : Record) (today : Date) : SubState :=
  (cmd_check_found (fun _ => true) 0 r today).cls

/-- The branch of `cmd_start` taken when a row for the member exists: a paid
record with a valid, not-yet-passed expiry gets invite links and the active
reply; a paid record with a missing, unparseable or passed expiry gets the
subscription-expired reply; an unpaid record gets the unconfirmed-payment
reply. -/
def cmd_start_found (g : Action → Bool) (tg : Int) (r : Record) (today : Date) : StartRun :=
  if pyLower r.paid = "yes" then
    match parse_date_or_none r.expiry_date with
    | some e =>
      if dateLe today e then
        let run := send_invite_links g tg
        ⟨run.1, run.2, msgStartActive e⟩
      else ⟨[], none, msgStartExpired⟩
    | none => ⟨[], none, msgStartExpired⟩
  else ⟨[], none, msgStartUnpaid⟩

/-- One iteration of the per-row loop of `subscription_watcher`: rows whose
stripped id is empty or fails `int()` are skipped; a paid row with a valid,
passed expiry runs the guarded revoke sequence; everything else is left
alone. -/
def sweepRow (g : Action → Bool) (today : Date) (r : Record) : List Action × Option Action :=
  if stripChars r.telegram_id.data = [] then ([], none)
  else
    match pyIntOpt (stripChars r.telegram_id.data) with
    | none => ([], none)
    | some tg =>
      if pyLower r.paid = "yes" then
        match parse_date_or_none r.expiry_date with
        | some e =>
          if dateLt e today then runTry g (watcherRevokeSeq tg) else ([], none)
        | none => ([], none)
      else ([], none)

/-- One cycle of `subscription_watcher`: `worksheet.get_all_records()` runs
outside every `try`, so a failing store read propagates out of the cycle;
a successful read processes every row in order. -/
def subscription_watcher_cycle (g : Action → Bool) (today : Date)
    (store : Except String (List Record)) :
    Except String (List (List Action × Option Action)) :=
  match store with
  | Except.error e => Except.error e
  | Except.ok rows => Except.ok (rows.map (sweepRow g today))

/-- The link messages a `send_invite_links` run actually delivered. -/
def deliveredLinks (p : List Action × Option Action) : List Action :=
  p.1.filter Action.isSend

/-- How many rows of a sweep output had a revoke sequence initiated. -/
def issuedRevokes (out : List (List Action × Option Action)) : Nat :=
  (out.filter (fun p => !(attempted p).isEmpty)).length

/-! ### Concrete fixtures used by counterexamples and witnesses -/

/-- Oracle under which every external call succeeds. -/
def gAllOk : Action → Bool := fun _ => true

/-- Oracle under which every external call raises (e.g. the member is gone and
the gateway rejects everything). -/
def gAllFail : Action → Bool := fun _ => false

/-- Oracle failing exactly the ban on the chat group for member 7. -/
def gFailChatBan : Action → Bool :=
  fun a => !(decide (a = Action.ban CHAT_ID 7))

/-- Oracle failing exactly the creation of the channel invite link. -/
def gFailChannelInvite : Action → Bool :=
  fun a => !(decide (a = Action.createInvite CHANNEL_ID))

/-- A paid row whose identifier cell is empty and whose expiry has passed. -/
def rowNoId : Record := ⟨"", "", "", "yes", "2020-01-01"⟩

/-- A paid row whose identifier cell is not numeric. -/
def rowBadId : Record := ⟨"abc", "", "", "yes", "2020-01-01"⟩

/-- A paid row with an empty expiry cell. -/
def rowPaidNoExpiry : Record := ⟨"777", "u", "Ana Pop", "yes", ""⟩

/-- A paid row with a passed expiry date. -/
def rowPaidExpired : Record := ⟨"333", "u3", "X Y", "yes", "2020-01-01"⟩

/-- A paid row with a future expiry date. -/
def rowPaidFuture : Record := ⟨"222", "u2", "Ion Pop", "yes", "2099-01-01"⟩

/-- An unpaid row that nevertheless carries an expiry date. -/
def rowUnpaid : Record := ⟨"555", "u5", "N N", "no", "2099-01-01"⟩

/-- An evaluation date used by the concrete scenarios. -/
def day2024 : Date := ⟨2024, 1, 1⟩

/-- A store-read failure used by the concrete scenarios. -/
def storeFailureText : String := "gspread read failure"

/-! ### General lemmas about the embedding -/

/-- A guarded block completes exactly the longest oracle-approved leading run of
its calls and logs the first refused call, if any. -/
lemma runTry_eq (g : Action → Bool) (as : List Action) :
    runTry g as = (as.takeWhile g, (as.dropWhile g).head?) := by
  induction as with
  | nil => rfl
  | cons a as ih =>
    by_cases h : g a = true
    · simp [runTry, List.takeWhile, List.dropWhile, h, ih]
    · simp [runTry, List.takeWhile, List.dropWhile, h]

/-- Totality of the Python date order: `a <= b` iff not `b < a`. -/
lemma dateLe_iff_not_lt (a b : Date) : dateLe a b = true ↔ dateLt b a = false := by
  cases a with
  | mk ay am ad =>
    cases b with
    | mk cy cm cd =>
      simp [dateLe, dateLt, Date.mk.injEq, decide_eq_false_iff_not]
      omega

/-- The classification computed on the `/check` path, spelt out by cases. -/
lemma checkClassify_spec (r : Record) (today : Date) :
    checkClassify r today =
      if pyLower r.paid ≠ "yes" then SubState.awaitingPayment
      else
        match parse_date_or_none r.expiry_date with
        | none => SubState.awaitingNoExpiry
        | some e => if dateLt e today then SubState.expired e else SubState.active e := by
  unfold checkClassify cmd_check_found
  by_cases hp : pyLower r.paid = "yes"
  · cases hq : parse_date_or_none r.expiry_date with
    | none => simp [hp, hq]
    | some e =>
      by_cases hd : dateLt e today = true
      · simp [hp, hq, hd]
      · simp [hp, hq, hd]
  · simp [hp]

/-- The classification field of a `/check` run does not depend on the gateway
oracle or on the member id. -/
lemma cmd_check_found_cls (g : Action → Bool) (tg : Int) (r : Record) (today : Date) :
    (cmd_check_found g tg r today).cls = checkClassify r today := by
  unfold checkClassify cmd_check_found
  by_cases hp : pyLower r.paid = "yes"
  · cases hq : parse_date_or_none r.expiry_date with
    | none => simp [hp, hq]
    | some e =>
      by_cases hd : dateLt e today = true
      · simp [hp, hq, hd]
      · simp [hp, hq, hd]
  · simp [hp]

/-- Attempted calls of a guarded block, one step at a time. -/
lemma attempted_cons (g : Action → Bool) (a : Action) (as : List Action) :
    attempted (runTry g (a :: as)) =
      if g a then a :: attempted (runTry g as) else [a] := by
  by_cases h : g a = true
  · simp [runTry, attempted, h]
  · simp [runTry, attempted, h]

/-- Every call a guarded block attempts comes from its call list, so a
predicate holding on the list holds on the attempted calls. -/
lemma attempted_runTry_all (p : Action → Bool) (g : Action → Bool) (as : List Action)
    (h : as.all p = true) : (attempted (runTry g as)).all p = true := by
  induction as with
  | nil => rfl
  | cons a as ih =>
    rw [attempted_cons]
    simp only [List.all_cons, Bool.and_eq_true] at h
    by_cases hg : g a = true
    · simp [hg, h.1, ih h.2]
    · simp [hg, h.1]

/-- A guarded block over a nonempty call list always attempts its first call. -/
lemma attempted_nonempty (g : Action → Bool) (a : Action) (as : List Action) :
    (attempted (runTry g (a :: as))).isEmpty = false := by
  rw [attempted_cons]
  by_cases hg : g a = true
  · simp [hg]
  · simp [hg]

/-- A sweep row attempts gateway calls exactly when its identifier parses and
the `/check` classification of the row is the expired one. -/
lemma sweepRow_attempted_count (g : Action → Bool) (today : Date) (r : Record) :
    (!(attempted (sweepRow g today r)).isEmpty) =
      ((pyIntOpt (stripChars r.telegram_id.data)).isSome &&
        (checkClassify r today).isExpired) := by
  unfold sweepRow
  by_cases hid : stripChars r.telegram_id.data = []
  · simp [hid, attempted, pyIntOpt]
  · cases hpi : pyIntOpt (stripChars r.telegram_id.data) with
    | none => simp [hid, hpi, attempted]
    | some tg =>
      rw [checkClassify_spec]
      by_cases hp : pyLower r.paid = "yes"
      · cases hq : parse_date_or_none r.expiry_date with
        | none => simp [hid, hpi, hp, hq, attempted, SubState.isExpired]
        | some e =>
          by_cases hd : dateLt e today = true
          · simp [hid, hpi, hp, hq, hd, SubState.isExpired, watcherRevokeSeq,
              attempted_nonempty]
          · simp [hid, hpi, hp, hq, hd, attempted, SubState.isExpired]
      · simp [hid, hpi, hp, attempted, SubState.isExpired]

/-- No call a sweep row attempts writes to the store. -/
lemma sweepRow_writes_free (g : Action → Bool) (today : Date) (r : Record) :
    (attempted (sweepRow g today r)).all (fun a => !(a.isStoreWrite)) = true := by
  unfold sweepRow
  by_cases hid : stripChars r.telegram_id.data = []
  · simp [hid, attempted]
  · cases hpi : pyIntOpt (stripChars r.telegram_id.data) with
    | none => simp [hid, hpi, attempted]
    | some tg =>
      by_cases hp : pyLower r.paid = "yes"
      · cases hq : parse_date_or_none r.expiry_date with
        | none => simp [hid, hpi, hp, hq, attempted]
        | some e =>
          by_cases hd : dateLt e today = true
          · simp only [hid, hpi, hp, hq, hd, if_true, if_pos]
            exact attempted_runTry_all _ g (watcherRevokeSeq tg) (by rfl)
          · simp [hid, hpi, hp, hq, hd, attempted]
      · simp [hid, hpi, hp, attempted]

/-! ### Claim C1 -/

/-- C1 counterexample: the claim says a paid record with an empty or
unparseable expiry classifies as `AwaitingPayment`, never `Expired`, on every
evaluation path including the `/start` handler.  But on the `/start` path the
record `rowPaidNoExpiry` (paid, empty expiry) is answered with the
subscription-expired notice — the same reply an actually expired record gets —
and not with either awaiting-style reply. -/
theorem c1_start_treats_no_expiry_as_expired :
    (cmd_start_found gAllOk 777 rowPaidNoExpiry day2024).reply = msgStartExpired
    ∧ (cmd_start_found gAllOk 777 rowPaidNoExpiry day2024).reply
        = (cmd_start_found gAllOk 333 rowPaidExpired day2024).reply
    ∧ msgStartExpired = msgCheckExpired
    ∧ msgStartExpired ≠ msgStartUnpaid
    ∧ msgStartExpired ≠ msgCheckNoDate :=
  ⟨by decide, by decide, rfl, by decide, by decide⟩

/-- C1 amended: for every record with `paid = "yes"` whose expiry date is
empty or unparseable, the `/check` path classifies it as awaiting a valid
expiry (no grant, no revoke), and the sweeper neither revokes nor logs
anything for it; the `/start` handler also never grants and never revokes,
but it answers with the subscription-expired notice rather than an
awaiting-payment message. -/
theorem c1_paid_no_expiry_amended (g : Action → Bool) (tg : Int) (r : Record) (today : Date)
    (hp : pyLower r.paid = "yes") (hq : parse_date_or_none r.expiry_date = none) :
    checkClassify r today = SubState.awaitingNoExpiry
    ∧ cmd_check_found g tg r today = ⟨SubState.awaitingNoExpiry, [], none, msgCheckNoDate⟩
    ∧ sweepRow g today r = ([], none)
    ∧ cmd_start_found g tg r today = ⟨[], none, msgStartExpired⟩ := by
  refine ⟨?_, ?_, ?_, ?_⟩
  · rw [checkClassify_spec]; simp [hp, hq]
  · simp [cmd_check_found, hp, hq]
  · unfold sweepRow
    by_cases hid : stripChars r.telegram_id.data = []
    · simp [hid]
    · cases hpi : pyIntOpt (stripChars r.telegram_id.data) with
      | none => simp [hid, hpi]
      | some tg2 => simp [hid, hpi, hp, hq]
  · simp [cmd_start_found, hp, hq]

/-- C1 witness: the amended statement evaluated on the concrete paid record
with an empty expiry cell. -/
theorem c1_paid_no_expiry_amended_witness :
    pyLower rowPaidNoExpiry.paid = "yes"
    ∧ parse_date_or_none rowPaidNoExpiry.expiry_date = none
    ∧ (checkClassify rowPaidNoExpiry day2024 = SubState.awaitingNoExpiry
       ∧ cmd_check_found gAllOk 777 rowPaidNoExpiry day2024
           = ⟨SubState.awaitingNoExpiry, [], none, msgCheckNoDate⟩
       ∧ sweepRow gAllOk day2024 rowPaidNoExpiry = ([], none)
       ∧ cmd_start_found gAllOk 777 rowPaidNoExpiry day2024 = ⟨[], none, msgStartExpired⟩) :=
  ⟨by decide, by decide,
    c1_paid_no_expiry_amended gAllOk 777 rowPaidNoExpiry day2024 (by decide) (by decide)⟩

/-! ### Claim C2 -/

/-- C2 counterexample: the claim says a failure of the revoke call on the
first group does not prevent the attempt on the second group.  Under the
oracle that fails exactly the chat-group ban for member 7, the guarded revoke
block attempts only that one call: no call on the channel group is ever
attempted. -/
theorem c2_groups_not_independent :
    attempted (runTry gFailChatBan (checkRevokeSeq 7)) = [Action.ban CHAT_ID 7]
    ∧ Action.ban CHANNEL_ID 7 ∉ attempted (runTry gFailChatBan (checkRevokeSeq 7))
    ∧ Action.unban CHANNEL_ID 7 ∉ attempted (runTry gFailChatBan (checkRevokeSeq 7)) :=
  ⟨by decide, by decide, by decide⟩

/-- C2 amended: the four revoke/restore calls for the two groups run in one
guarded block.  The block completes exactly the longest leading run of
successful calls, so the first failure skips every remaining call, including
the other group's; the single caught error is logged, nothing is thrown to
the caller, and the member still receives the expired notice. -/
theorem c2_single_guarded_block_amended (g : Action → Bool) (tg : Int) (r : Record)
    (today e : Date) (hp : pyLower r.paid = "yes")
    (hq : parse_date_or_none r.expiry_date = some e) (hd : dateLt e today = true) :
    runTry g (checkRevokeSeq tg)
      = ((checkRevokeSeq tg).takeWhile g, ((checkRevokeSeq tg).dropWhile g).head?)
    ∧ (cmd_check_found g tg r today).reply = msgCheckExpired
    ∧ (cmd_check_found g tg r today).logged = ((checkRevokeSeq tg).dropWhile g).head? := by
  refine ⟨runTry_eq g _, ?_, ?_⟩
  · simp [cmd_check_found, hp, hq, hd]
  · simp [cmd_check_found, hp, hq, hd, runTry_eq]

/-- C2 witness: the amended statement evaluated on the expired record under
the oracle failing the chat-group ban. -/
theorem c2_single_guarded_block_amended_witness :
    pyLower rowPaidExpired.paid = "yes"
    ∧ parse_date_or_none rowPaidExpired.expiry_date = some ⟨2020, 1, 1⟩
    ∧ dateLt ⟨2020, 1, 1⟩ day2024 = true
    ∧ (runTry gFailChatBan (checkRevokeSeq 7)
        = ((checkRevokeSeq 7).takeWhile gFailChatBan,
           ((checkRevokeSeq 7).dropWhile gFailChatBan).head?)
       ∧ (cmd_check_found gFailChatBan 7 rowPaidExpired day2024).reply = msgCheckExpired
       ∧ (cmd_check_found gFailChatBan 7 rowPaidExpired day2024).logged
           = ((checkRevokeSeq 7).dropWhile gFailChatBan).head?) :=
  ⟨by decide, by decide, by decide,
    c2_single_guarded_block_amended gFailChatBan 7 rowPaidExpired day2024 ⟨2020, 1, 1⟩
      (by decide) (by decide) (by decide)⟩

/-! ### Claim C3 -/

/-- C3 counterexample: the claim says that when creating one invite link
fails, the failure is surfaced to the caller and the other link, if obtained,
is still delivered.  Under the oracle failing exactly the channel-link
creation, the chat link is obtained, yet no link message is delivered at all,
and the caller-visible reply is identical to the fully successful case, so no
partial-failure signal reaches the caller. -/
theorem c3_partial_failure_not_surfaced :
    Action.createInvite CHAT_ID ∈ (send_invite_links gFailChannelInvite 222).1
    ∧ deliveredLinks (send_invite_links gFailChannelInvite 222) = []
    ∧ (cmd_check_found gFailChannelInvite 222 rowPaidFuture day2024).reply
        = (cmd_check_found gAllOk 222 rowPaidFuture day2024).reply :=
  ⟨by decide, by decide, by decide⟩

/-- C3 amended: if creating either invite link fails, the failure is caught
and logged inside `send_invite_links`, no signal reaches the caller, and no
link message is delivered to the member: both sends run only after both
creations succeed. -/
theorem c3_no_links_on_failure_amended (g : Action → Bool) (tg : Int)
    (h : g (Action.createInvite CHAT_ID) = false ∨ g (Action.createInvite CHANNEL_ID) = false) :
    deliveredLinks (send_invite_links g tg) = []
    ∧ (send_invite_links g tg).2.isSome = true := by
  unfold send_invite_links inviteSeq
  rcases h with h | h
  · simp [runTry, h, deliveredLinks]
  · cases hc : g (Action.createInvite CHAT_ID) with
    | false => simp [runTry, hc, deliveredLinks]
    | true => simp [runTry, hc, h, deliveredLinks, Action.isSend]

/-- C3 witness: the amended statement evaluated under the oracle failing the
channel-link creation. -/
theorem c3_no_links_on_failure_amended_witness :
    (gFailChannelInvite (Action.createInvite CHAT_ID) = false
      ∨ gFailChannelInvite (Action.createInvite CHANNEL_ID) = false)
    ∧ (deliveredLinks (send_invite_links gFailChannelInvite 5) = []
       ∧ (send_invite_links gFailChannelInvite 5).2.isSome = true) :=
  ⟨Or.inr (by decide), c3_no_links_on_failure_amended gFailChannelInvite 5 (Or.inr (by decide))⟩

/-! ### Claim C4 -/

/-- C4: for every record whose identifier parses as an integer and every
evaluation date, the sweeper and the `/check` path agree: the sweeper's
inline revoke sequence is the same call list as `/check`'s, the sweeper
initiates it exactly when the `/check` classification of the record is the
expired one, and when it does, the completed calls and the logged error of
the two paths coincide. -/
theorem c4_check_and_sweeper_agree (g : Action → Bool) (r : Record) (today : Date) (tg : Int)
    (h : pyIntOpt (stripChars r.telegram_id.data) = some tg) :
    watcherRevokeSeq tg = checkRevokeSeq tg
    ∧ sweepRow g today r =
        (if (checkClassify r today).isExpired then runTry g (checkRevokeSeq tg) else ([], none))
    ∧ ((checkClassify r today).isExpired = true →
        (cmd_check_found g tg r today).succeeded = (sweepRow g today r).1
        ∧ (cmd_check_found g tg r today).logged = (sweepRow g today r).2) := by
  have hid : ¬ stripChars r.telegram_id.data = [] := by
    intro he; rw [he] at h; simp [pyIntOpt] at h
  have hsweep : sweepRow g today r =
      (if (checkClassify r today).isExpired then runTry g (checkRevokeSeq tg) else ([], none)) := by
    unfold sweepRow
    rw [checkClassify_spec]
    by_cases hp : pyLower r.paid = "yes"
    · cases hq : parse_date_or_none r.expiry_date with
      | none => simp [hid, h, hp, hq, SubState.isExpired]
      | some e =>
        by_cases hd : dateLt e today = true
        · simp [hid, h, hp, hq, hd, SubState.isExpired, watcherRevokeSeq, checkRevokeSeq]
        · simp [hid, h, hp, hq, hd, SubState.isExpired]
    · simp [hid, h, hp, SubState.isExpired]
  refine ⟨rfl, hsweep, ?_⟩
  intro hex
  by_cases hp : pyLower r.paid = "yes"
  · cases hq : parse_date_or_none r.expiry_date with
    | none =>
      rw [checkClassify_spec] at hex
      simp [hp, hq, SubState.isExpired] at hex
    | some e =>
      by_cases hd : dateLt e today = true
      · rw [hsweep, if_pos (by rw [checkClassify_spec]; simp [hp, hq, hd, SubState.isExpired])]
        simp [cmd_check_found, hp, hq, hd]
      · rw [checkClassify_spec] at hex
        simp [hp, hq, hd, SubState.isExpired] at hex
  · rw [checkClassify_spec] at hex
    simp [hp, SubState.isExpired] at hex

/-- C4 witness: the agreement evaluated on the concrete expired record with
identifier 333. -/
theorem c4_check_and_sweeper_agree_witness :
    pyIntOpt (stripChars rowPaidExpired.telegram_id.data) = some 333
    ∧ (watcherRevokeSeq 333 = checkRevokeSeq 333
       ∧ sweepRow gAllOk day2024 rowPaidExpired =
           (if (checkClassify rowPaidExpired day2024).isExpired then
             runTry gAllOk (checkRevokeSeq 333) else ([], none))
       ∧ ((checkClassify rowPaidExpired day2024).isExpired = true →
           (cmd_check_found gAllOk 333 rowPaidExpired day2024).succeeded
             = (sweepRow gAllOk day2024 rowPaidExpired).1
           ∧ (cmd_check_found gAllOk 333 rowPaidExpired day2024).logged
             = (sweepRow gAllOk day2024 rowPaidExpired).2)) :=
  ⟨by decide, c4_check_and_sweeper_agree gAllOk rowPaidExpired day2024 333 (by decide)⟩

/-! ### Claim C5 -/

/-- C5 counterexample: the claim says every failure during a sweep cycle,
including failures of the store operations, is contained and nothing escapes
to abort the whole cycle.  But the store read that lists all records runs
outside every guarded block: when it fails, the failure propagates out of the
cycle unchanged, aborting it. -/
theorem c5_store_read_failure_escapes :
    subscription_watcher_cycle gAllOk day2024 (Except.error storeFailureText)
      = Except.error storeFailureText := rfl

/-- C5 amended: per-member gateway failures are contained — under every
gateway oracle a cycle whose store read succeeds completes normally and
processes every record, each through its own guarded block — but containment
is per record, not per group (within one record the first failure skips that
record's remaining calls), and a failure of the store read itself is not
caught and aborts the whole cycle. -/
theorem c5_gateway_failures_contained_amended (g : Action → Bool) (today : Date)
    (rows : List Record) :
    ∃ out, subscription_watcher_cycle g today (Except.ok rows) = Except.ok out
      ∧ out = rows.map (sweepRow g today)
      ∧ out.length = rows.length :=
  ⟨rows.map (sweepRow g today), rfl, rfl, by simp⟩

/-! ### Claim C6 -/

/-- C6: for every record with `paid = "yes"` and a validly parsed expiry `e`,
and every evaluation date, the `/check` classification is the active one iff
`today <= e` and the expired one iff `e < today`; an active record gets the
invite links and the active reply on `/check` (and on `/start`), and an
expired record gets the guarded revoke sequence and the expired reply on
`/check`. -/
theorem c6_valid_expiry_active_iff (g : Action → Bool) (tg : Int) (r : Record) (today e : Date)
    (hp : pyLower r.paid = "yes") (hq : parse_date_or_none r.expiry_date = some e) :
    ((checkClassify r today = SubState.active e) ↔ dateLe today e = true)
    ∧ ((checkClassify r today = SubState.expired e) ↔ dateLt e today = true)
    ∧ (dateLe today e = true →
        cmd_check_found g tg r today =
          ⟨SubState.active e, (send_invite_links g tg).1, (send_invite_links g tg).2,
            msgCheckActive e⟩)
    ∧ (dateLt e today = true →
        cmd_check_found g tg r today =
          ⟨SubState.expired e, (runTry g (checkRevokeSeq tg)).1,
            (runTry g (checkRevokeSeq tg)).2, msgCheckExpired⟩)
    ∧ (dateLe today e = true →
        cmd_start_found g tg r today =
          ⟨(send_invite_links g tg).1, (send_invite_links g tg).2, msgStartActive e⟩) := by
  have hle := dateLe_iff_not_lt today e
  refine ⟨?_, ?_, ?_, ?_, ?_⟩
  · rw [checkClassify_spec, hle]
    cases hd : dateLt e today with
    | false => simp [hp, hq, hd]
    | true => simp [hp, hq, hd]
  · rw [checkClassify_spec]
    cases hd : dateLt e today with
    | false => simp [hp, hq, hd]
    | true => simp [hp, hq, hd]
  · intro h
    have hd : dateLt e today = false := hle.mp h
    simp [cmd_check_found, hp, hq, hd]
  · intro hd
    simp [cmd_check_found, hp, hq, hd]
  · intro h
    simp [cmd_start_found, hp, hq, h]

/-- C6 witness: the equivalences evaluated on the concrete paid record with
expiry 2099-01-01 as of 2024-01-01. -/
theorem c6_valid_expiry_active_iff_witness :
    pyLower rowPaidFuture.paid = "yes"
    ∧ parse_date_or_none rowPaidFuture.expiry_date = some ⟨2099, 1, 1⟩
    ∧ (((checkClassify rowPaidFuture day2024 = SubState.active ⟨2099, 1, 1⟩)
          ↔ dateLe day2024 ⟨2099, 1, 1⟩ = true)
       ∧ ((checkClassify rowPaidFuture day2024 = SubState.expired ⟨2099, 1, 1⟩)
          ↔ dateLt ⟨2099, 1, 1⟩ day2024 = true)
       ∧ (dateLe day2024 ⟨2099, 1, 1⟩ = true →
           cmd_check_found gAllOk 222 rowPaidFuture day2024 =
             ⟨SubState.active ⟨2099, 1, 1⟩, (send_invite_links gAllOk 222).1,
               (send_invite_links gAllOk 222).2, msgCheckActive ⟨2099, 1, 1⟩⟩)
       ∧ (dateLt ⟨2099, 1, 1⟩ day2024 = true →
           cmd_check_found gAllOk 222 rowPaidFuture day2024 =
             ⟨SubState.expired ⟨2099, 1, 1⟩, (runTry gAllOk (checkRevokeSeq 222)).1,
               (runTry gAllOk (checkRevokeSeq 222)).2, msgCheckExpired⟩)
       ∧ (dateLe day2024 ⟨2099, 1, 1⟩ = true →
           cmd_start_found gAllOk 222 rowPaidFuture day2024 =
             ⟨(send_invite_links gAllOk 222).1, (send_invite_links gAllOk 222).2,
               msgStartActive ⟨2099, 1, 1⟩⟩)) :=
  ⟨by decide, by decide,
    c6_valid_expiry_active_iff gAllOk 222 rowPaidFuture day2024 ⟨2099, 1, 1⟩
      (by decide) (by decide)⟩

/-! ### Claim C7 -/

/-- C7: every record whose lowercased payment status is not `"yes"` yields
the awaiting-payment outcome on `/check` and `/start` and is never revoked by
the sweeper, whatever its expiry cell holds: the conclusion is independent of
`expiry_date`, so the expiry never causes a grant or a revoke. -/
theorem c7_unpaid_always_awaiting (g : Action → Bool) (tg : Int) (r : Record) (today : Date)
    (hp : ¬ pyLower r.paid = "yes") :
    checkClassify r today = SubState.awaitingPayment
    ∧ cmd_check_found g tg r today = ⟨SubState.awaitingPayment, [], none, msgCheckUnpaid⟩
    ∧ sweepRow g today r = ([], none)
    ∧ cmd_start_found g tg r today = ⟨[], none, msgStartUnpaid⟩ := by
  refine ⟨?_, ?_, ?_, ?_⟩
  · rw [checkClassify_spec]; simp [hp]
  · simp [cmd_check_found, hp]
  · unfold sweepRow
    by_cases hid : stripChars r.telegram_id.data = []
    · simp [hid]
    · cases hpi : pyIntOpt (stripChars r.telegram_id.data) with
      | none => simp [hid, hpi]
      | some tg2 => simp [hid, hpi, hp]
  · simp [cmd_start_found, hp]

/-- C7 witness: the statement evaluated on the concrete unpaid record that
carries a (meaningless) future expiry date. -/
theorem c7_unpaid_always_awaiting_witness :
    ¬ pyLower rowUnpaid.paid = "yes"
    ∧ (checkClassify rowUnpaid day2024 = SubState.awaitingPayment
       ∧ cmd_check_found gAllOk 555 rowUnpaid day2024
           = ⟨SubState.awaitingPayment, [], none, msgCheckUnpaid⟩
       ∧ sweepRow gAllOk day2024 rowUnpaid = ([], none)
       ∧ cmd_start_found gAllOk 555 rowUnpaid day2024 = ⟨[], none, msgStartUnpaid⟩) :=
  ⟨by decide, c7_unpaid_always_awaiting gAllOk 555 rowUnpaid day2024 (by decide)⟩

/-! ### Claim C8 -/

/-- C8 counterexample: the claim says a sweep over records of which exactly K
classify as expired issues exactly K revoke sequences.  The single record
`rowNoId` is classified expired (paid, expiry long past) but its identifier
cell is empty, so the sweep issues zero revoke sequences, not one. -/
theorem c8_expired_without_id_not_revoked :
    ([rowNoId].filter (fun r => (checkClassify r day2024).isExpired)).length = 1
    ∧ issuedRevokes ([rowNoId].map (sweepRow gAllOk day2024)) = 0 :=
  ⟨by decide, by decide⟩

/-- C8 amended: a sweep cycle issues exactly one revoke sequence per record
that classifies as expired AND whose identifier cell parses as an integer —
an expired record with an empty or non-numeric identifier is skipped — and
no call any row attempts is a store write, so the stored payment status and
expiry of every record are unchanged by the sweep. -/
theorem c8_revoke_count_and_no_writes_amended (g : Action → Bool) (today : Date)
    (rows : List Record) :
    issuedRevokes (rows.map (sweepRow g today)) =
      (rows.filter (fun r => (pyIntOpt (stripChars r.telegram_id.data)).isSome &&
        (checkClassify r today).isExpired)).length
    ∧ (rows.map (sweepRow g today)).all
        (fun p => (attempted p).all (fun a => !(a.isStoreWrite))) = true := by
  constructor
  · induction rows with
    | nil => rfl
    | cons r rows ih =>
      simp only [List.map_cons, issuedRevokes, List.filter_cons, sweepRow_attempted_count]
      by_cases hcond : ((pyIntOpt (stripChars r.telegram_id.data)).isSome &&
          (checkClassify r today).isExpired) = true
      · simpa [hcond] using ih
      · simpa [hcond] using ih
  · induction rows with
    | nil => rfl
    | cons r rows ih => simp [List.all_cons, sweepRow_writes_free, ih]

/-! ### Claim C9 -/

/-- C9: repeated revocation never errors out of the caller.  For an expired
record, two consecutive evaluations of the revoke path with arbitrary gateway
outcomes each time — in particular a second round in which every call fails
because the member was already removed — both complete and deliver the normal
expired notice; the second round's gateway error, if any, is merely logged. -/
theorem c9_repeated_revoke_never_aborts (g1 g2 : Action → Bool) (tg : Int) (r : Record)
    (today e : Date) (hp : pyLower r.paid = "yes")
    (hq : parse_date_or_none r.expiry_date = some e) (hd : dateLt e today = true) :
    (cmd_check_found g1 tg r today).reply = msgCheckExpired
    ∧ (cmd_check_found g2 tg r today).reply = msgCheckExpired
    ∧ (cmd_check_found g2 tg r today).logged = ((checkRevokeSeq tg).dropWhile g2).head?
    ∧ (cmd_check_found g2 tg r today).cls = SubState.expired e := by
  refine ⟨?_, ?_, ?_, ?_⟩
  · simp [cmd_check_found, hp, hq, hd]
  · simp [cmd_check_found, hp, hq, hd]
  · simp [cmd_check_found, hp, hq, hd, runTry_eq]
  · simp [cmd_check_found, hp, hq, hd]

/-- C9 witness: the statement evaluated on the concrete expired record, with
every gateway call succeeding the first time and every gateway call failing
the second time (the member is already gone). -/
theorem c9_repeated_revoke_never_aborts_witness :
    pyLower rowPaidExpired.paid = "yes"
    ∧ parse_date_or_none rowPaidExpired.expiry_date = some ⟨2020, 1, 1⟩
    ∧ dateLt ⟨2020, 1, 1⟩ day2024 = true
    ∧ ((cmd_check_found gAllOk 333 rowPaidExpired day2024).reply = msgCheckExpired
       ∧ (cmd_check_found gAllFail 333 rowPaidExpired day2024).reply = msgCheckExpired
       ∧ (cmd_check_found gAllFail 333 rowPaidExpired day2024).logged
           = ((checkRevokeSeq 333).dropWhile gAllFail).head?
       ∧ (cmd_check_found gAllFail 333 rowPaidExpired day2024).cls
           = SubState.expired ⟨2020, 1, 1⟩) :=
  ⟨by decide, by decide, by decide,
    c9_repeated_revoke_never_aborts gAllOk gAllFail 333 rowPaidExpired day2024 ⟨2020, 1, 1⟩
      (by decide) (by decide) (by decide)⟩

/-! ### Claim C10 -/

/-- C10: a sweep row whose stripped identifier cell is empty or fails integer
parsing is skipped silently — no gateway call, no logged error — and the
cycle still processes all following rows. -/
theorem c10_bad_id_skipped_silently (g : Action → Bool) (today : Date) (r : Record)
    (rest : List Record)
    (h : stripChars r.telegram_id.data = [] ∨ pyIntOpt (stripChars r.telegram_id.data) = none) :
    sweepRow g today r = ([], none)
    ∧ subscription_watcher_cycle g today (Except.ok (r :: rest)) =
        Except.ok (([], none) :: rest.map (sweepRow g today)) := by
  have hrow : sweepRow g today r = ([], none) := by
    unfold sweepRow
    rcases h with h | h
    · simp [h]
    · by_cases hid : stripChars r.telegram_id.data = []
      · simp [hid]
      · simp [hid, h]
  exact ⟨hrow, by simp [subscription_watcher_cycle, hrow]⟩

/-- C10 witness: the statement evaluated on the concrete row whose identifier
cell holds the non-numeric text of `rowBadId`. -/
theorem c10_bad_id_skipped_silently_witness :
    (stripChars rowBadId.telegram_id.data = []
      ∨ pyIntOpt (stripChars rowBadId.telegram_id.data) = none)
    ∧ (sweepRow gAllOk day2024 rowBadId = ([], none)
       ∧ subscription_watcher_cycle gAllOk day2024 (Except.ok (rowBadId :: [rowPaidExpired])) =
           Except.ok (([], none) :: [rowPaidExpired].map (sweepRow gAllOk day2024))) :=
  ⟨Or.inr (by decide),
    c10_bad_id_skipped_silently gAllOk day2024 rowBadId [rowPaidExpired] (Or.inr (by decide))⟩

end Sowatly
